import Mathlib

/-!
Shallow embedding of the PsychOculusVRCore driver
(PsychSourceGL/Source/Common/PsychOculusVRCore/PsychOculusVR.c).

The driver manages a fixed table of MAX_PSYCH_OCULUS_DEVS = 10 device
records plus process-wide globals (available_devices, devicecount,
initialized).  Calls into the Oculus SDK (ovr_Initialize, ovrHmd_Detect,
ovrHmd_Create, ovrHmd_CreateDebug, ovrHmd_ConfigureTracking,
ovrHmd_GetTrackingState, ovrHmd_GetFovTextureSize, ovrHmd_GetRenderDesc,
ovrHmd_CreateDistortionMesh, ovrHmd_GetRenderScaleAndOffset,
ovrHmd_GetHmdPosePerEye, ovrHmd_GetEyeTimewarpMatrices) are external:
their results are passed to each modelled operation as explicit inputs,
so theorems quantify over every possible SDK behaviour.  Native HMD
pointers are modelled as `Option Nat` (none = NULL); numeric payload
fields copied between SDK structures and output arrays are modelled as
`Int`; the `pixelsPerDisplay` double, whose only use is the sign test,
is modelled as `ℚ`.  `PsychErrorExitMsg` aborts the current call by
longjmp, leaving any state mutations made so far in place; operations
therefore return the (possibly partially updated) state together with a
result.  A ghost log `released` records the mesh ids passed to
`ovrHmd_DestroyDistortionMesh`, to reason about release-exactly-once.
-/

namespace PsychOculusVR

/-- Kinds of driver errors raised by PsychErrorExitMsg. -/
inductive PsychError : Type
  | user (msg : String)
  | system (msg : String)
  | internalErr (msg : String)
deriving DecidableEq, Repr

/-- Result of one driver subfunction call.  `crash` models abnormal
process termination by undefined behaviour (a NULL-pointer dereference):
no value is returned and no later statement of the call runs, but the
state mutations already performed stand. -/
inductive PsychResult (α : Type) : Type
  | ok (val : α)
  | fail (e : PsychError)
  | crash
deriving DecidableEq, Repr

/-- ovrVector2f. -/
structure Vec2 where
  x : Int
  y : Int
deriving DecidableEq, Repr

/-- ovrVector3f. -/
structure Vec3 where
  x : Int
  y : Int
  z : Int
deriving DecidableEq, Repr

/-- ovrQuatf. -/
structure Quat where
  x : Int
  y : Int
  z : Int
  w : Int
deriving DecidableEq, Repr

/-- ovrSizei. -/
structure Sizei where
  w : Int
  h : Int
deriving DecidableEq, Repr

/-- ovrVector2i. -/
structure Vec2i where
  x : Int
  y : Int
deriving DecidableEq, Repr

/-- ovrRecti. -/
structure Recti where
  Pos : Vec2i
  Size : Sizei
deriving DecidableEq, Repr

/-- ovrFovPort: tangent bounds of the field of view. -/
structure FovPort where
  UpTan : Int
  DownTan : Int
  LeftTan : Int
  RightTan : Int
deriving DecidableEq, Repr

/-- ovrPosef. -/
structure Posef where
  Orientation : Quat
  Position : Vec3
deriving DecidableEq, Repr

/-- ovrPoseStatef. -/
structure PoseStatef where
  ThePose : Posef
  AngularVelocity : Vec3
  LinearVelocity : Vec3
  AngularAcceleration : Vec3
  LinearAcceleration : Vec3
  TimeInSeconds : Int
deriving DecidableEq, Repr

/-- ovrTrackingState (the fields the driver reads). -/
structure TrackingState where
  HeadPose : PoseStatef
deriving DecidableEq, Repr

/-- ovrDistortionVertex. -/
structure DistortionVertex where
  ScreenPosNDC : Vec2
  TimeWarpFactor : Int
  VignetteFactor : Int
  TanEyeAnglesR : Vec2
  TanEyeAnglesG : Vec2
  TanEyeAnglesB : Vec2
deriving DecidableEq, Repr

/-- ovrDistortionMesh.  `meshId` is a ghost identity for the SDK-owned
vertex/index buffers, used to track acquisition and release. -/
structure DistortionMesh where
  meshId : Nat
  VertexCount : Nat
  pVertexData : List DistortionVertex
  IndexCount : Nat
  pIndexData : List Nat
deriving DecidableEq, Repr

/-- ovrEyeRenderDesc. -/
structure EyeRenderDesc where
  Eye : Nat
  Fov : FovPort
  DistortedViewport : Recti
  PixelsPerTanAngleAtCenter : Vec2
  HmdToEyeViewOffset : Vec3
deriving DecidableEq, Repr

/-- A two-element per-eye array, as in the C `field[2]` members. -/
structure Eyes (α : Type) : Type where
  e0 : α
  e1 : α
deriving DecidableEq, Repr

/-- Read per-eye entry `i` (the C code only ever uses indices 0 and 1). -/
def Eyes.get {α : Type} (p : Eyes α) (i : Nat) : α :=
  if i = 0 then p.e0 else p.e1

/-- Write per-eye entry `i`. -/
def Eyes.set {α : Type} (p : Eyes α) (i : Nat) (a : α) : Eyes α :=
  if i = 0 then { p with e0 := a } else { p with e1 := a }

/-- struct PsychOculusDevice: one slot of the device table.  `hmd = none`
models a NULL native device pointer, i.e. a free slot.  The distortion
meshes are `none` when their `pVertexData` pointer is NULL. -/
structure PsychOculusDevice where
  hmd : Option Nat
  isTracking : Bool
  texSize : Sizei
  eyeRenderDesc : Eyes EyeRenderDesc
  eyeDistortionMesh : Eyes (Option DistortionMesh)
  UVScaleOffset : Eyes (Vec2 × Vec2)
  timeWarpMatrices : List Int × List Int
  headPose : Eyes Posef
deriving DecidableEq, Repr

/-- MAX_PSYCH_OCULUS_DEVS. -/
def MAX_PSYCH_OCULUS_DEVS : Nat := 10

/-- An all-zero device record, as produced by `memset(..., 0, ...)` and by
the zero-initialisation of the static `oculusdevices` array. -/
def zeroDevice : PsychOculusDevice where
  hmd := none
  isTracking := false
  texSize := ⟨0, 0⟩
  eyeRenderDesc := ⟨⟨0, ⟨0,0,0,0⟩, ⟨⟨0,0⟩, ⟨0,0⟩⟩, ⟨0,0⟩, ⟨0,0,0⟩⟩,
                    ⟨0, ⟨0,0,0,0⟩, ⟨⟨0,0⟩, ⟨0,0⟩⟩, ⟨0,0⟩, ⟨0,0,0⟩⟩⟩
  eyeDistortionMesh := ⟨none, none⟩
  UVScaleOffset := ⟨(⟨0,0⟩, ⟨0,0⟩), (⟨0,0⟩, ⟨0,0⟩)⟩
  timeWarpMatrices := ([], [])
  headPose := ⟨⟨⟨0,0,0,0⟩, ⟨0,0,0⟩⟩, ⟨⟨0,0,0,0⟩, ⟨0,0,0⟩⟩⟩

/-- The process-wide mutable state of the driver: the static device table
`oculusdevices[MAX_PSYCH_OCULUS_DEVS]` and the file-scope globals.
`released` is a ghost log of the mesh ids handed to
`ovrHmd_DestroyDistortionMesh`. -/
structure DriverState where
  oculusdevices : Fin MAX_PSYCH_OCULUS_DEVS → PsychOculusDevice
  available_devices : Int
  devicecount : Nat
  initialized : Bool
  released : List Nat
deriving DecidableEq

/-- Access `oculusdevices[i]` (out-of-range reads, which the C code never
performs on the table itself, return the zero record). -/
def getDev (st : DriverState) (i : Nat) : PsychOculusDevice :=
  if h : i < MAX_PSYCH_OCULUS_DEVS then st.oculusdevices ⟨i, h⟩ else zeroDevice

/-- Write `oculusdevices[i]`. -/
def setDev (st : DriverState) (i : Nat) (d : PsychOculusDevice) : DriverState :=
  if h : i < MAX_PSYCH_OCULUS_DEVS then
    { st with oculusdevices := Function.update st.oculusdevices ⟨i, h⟩ d }
  else st

/-- `devicecount` is a C `unsigned int`: increment modulo 2^32. -/
def uinc (n : Nat) : Nat := (n + 1) % 4294967296

/-- `devicecount--` on a C `unsigned int`: decrement modulo 2^32. -/
def udec (n : Nat) : Nat := (n + 4294967295) % 4294967296

/-- PsychGetOculus: resolve a handle to a slot index.  A handle is valid
iff 1 <= handle <= MAX_PSYCH_OCULUS_DEVS and the slot holds a non-NULL
native device pointer.  Returns the 0-based slot index, `none` when the
handle is invalid (the `dontfail` distinction is made at each call site:
callers passing FALSE raise the user error themselves). -/
def PsychGetOculus (st : DriverState) (handle : Int) : Option Nat :=
  if handle < 1 ∨ handle > (MAX_PSYCH_OCULUS_DEVS : Int) ∨
      (getDev st (handle - 1).toNat).hmd = none then
    none
  else
    some (handle - 1).toNat

/-- The message of the user error raised on an invalid handle. -/
def invalidHandleMsg : String := "Invalid Oculus handle."

/-- PsychOculusVRInit: the zero-initialised start state of the module. -/
def PsychOculusVRInit : DriverState where
  oculusdevices := fun _ => zeroDevice
  available_devices := 0
  devicecount := 0
  initialized := false
  released := []

/-- PsychOculusVRCheckInit: lazily initialise the VR runtime.  `ovrInitOk`
is the result of `ovr_Initialize(NULL)`, `detect` the result of
`ovrHmd_Detect()`.  On success records the detected device count
(clamped at 0) and sets `initialized`; on failure raises a system error. -/
def PsychOculusVRCheckInit (ovrInitOk : Bool) (detect : Int)
    (st : DriverState) : DriverState × PsychResult Unit :=
  if st.initialized then (st, .ok ())
  else if ovrInitOk then
    ({ st with
        available_devices := if detect < 0 then 0 else detect,
        initialized := true }, .ok ())
  else
    (st, .fail (.system "PsychOculusVRCore-ERROR: Initialization of VR runtime failed. Driver disabled!"))

/-- PsychOculusStop: internal stop helper (called with dontfail = TRUE).
Invalid handle or a device that is not tracking: silent no-op.  Otherwise
request `ovrHmd_ConfigureTracking(hmd, 0, 0)` (its success is the input
`configOk`); on failure raise a system error with the flag still set,
on success clear `isTracking`. -/
def PsychOculusStop (configOk : Bool) (handle : Int)
    (st : DriverState) : DriverState × PsychResult Unit :=
  match PsychGetOculus st handle with
  | none => (st, .ok ())
  | some i =>
    let oculus := getDev st i
    if !oculus.isTracking then (st, .ok ())
    else if !configOk then
      (st, .fail (.system "Stop of Oculus HMD tracking failed for reason given above."))
    else
      (setDev st i { oculus with isTracking := false }, .ok ())

/-- ovrHmd_DestroyDistortionMesh on eye `e` of device record `d`, guarded
by the C null test on `pVertexData`: returns the updated record and the
list of mesh ids released (empty or a singleton). -/
def destroyMeshIfHeld (d : PsychOculusDevice) (e : Nat) :
    PsychOculusDevice × List Nat :=
  match d.eyeDistortionMesh.get e with
  | none => (d, [])
  | some m => ({ d with eyeDistortionMesh := d.eyeDistortionMesh.set e none }, [m.meshId])

/-- PsychOculusClose: internal close helper (called with dontfail = TRUE).
Invalid handle: silent no-op.  Otherwise stop tracking (a failing native
stop aborts the close, leaving the device open), release both distortion
meshes if held, NULL the native device pointer and decrement
`devicecount`. -/
def PsychOculusClose (configOk : Bool) (handle : Int)
    (st : DriverState) : DriverState × PsychResult Unit :=
  match PsychGetOculus st handle with
  | none => (st, .ok ())
  | some i =>
    match PsychOculusStop configOk handle st with
    | (st1, .fail e) => (st1, .fail e)
    | (st1, .crash) => (st1, .crash)
    | (st1, .ok _) =>
      let d := getDev st1 i
      let (d, rel0) := destroyMeshIfHeld d 0
      let (d, rel1) := destroyMeshIfHeld d 1
      let d := { d with hmd := none }
      ({ setDev st1 i d with
          released := st1.released ++ rel0 ++ rel1,
          devicecount := udec st1.devicecount }, .ok ())

/-- The close-all loop body of PsychOculusVRShutDown: call
`PsychOculusClose` on each element of `hs` in turn; a failing close
aborts the whole sequence by longjmp. -/
def closeAllLoop (configOk : Bool) : List Int → DriverState →
    DriverState × PsychResult Unit
  | [], st => (st, .ok ())
  | h :: t, st =>
    match PsychOculusClose configOk h st with
    | (st1, .ok _) => closeAllLoop configOk t st1
    | (st1, .fail e) => (st1, .fail e)
    | (st1, .crash) => (st1, .crash)

/-- PsychOculusVRShutDown: when initialized, run
`for (handle = 0; handle < MAX_PSYCH_OCULUS_DEVS; handle++)
PsychOculusClose(handle);` (note: the loop passes the 0-based loop
counter to the 1-based close routine), then `ovr_Shutdown()`; finally
clear `initialized`.  A failing close longjmps out before `initialized`
is cleared. -/
def PsychOculusVRShutDown (configOk : Bool)
    (st : DriverState) : DriverState × PsychResult Unit :=
  if st.initialized then
    match closeAllLoop configOk ((List.range MAX_PSYCH_OCULUS_DEVS).map Int.ofNat) st with
    | (st1, .ok _) => ({ st1 with initialized := false }, .ok ())
    | (st1, .fail e) => (st1, .fail e)
    | (st1, .crash) => (st1, .crash)
  else
    ({ st with initialized := false }, .ok ())

/-- PSYCHOCULUSVRGetCount: refresh `available_devices` from
`ovrHmd_Detect()` (result `detect2`, clamped at 0) and return it. -/
def PSYCHOCULUSVRGetCount (ovrInitOk : Bool) (detect1 detect2 : Int)
    (st : DriverState) : DriverState × PsychResult Int :=
  match PsychOculusVRCheckInit ovrInitOk detect1 st with
  | (st1, .fail e) => (st1, .fail e)
  | (st1, .crash) => (st1, .crash)
  | (st1, .ok _) =>
    let av := if detect2 < 0 then 0 else detect2
    ({ st1 with available_devices := av }, .ok av)

/-- The free-slot search of PSYCHOCULUSVROpen:
`for (handle = 0; (handle < MAX_PSYCH_OCULUS_DEVS) && oculusdevices[handle].hmd; handle++);`
returns the first slot index whose `hmd` is NULL, `none` when the table
is full. -/
def firstFreeSlot (st : DriverState) : Option Nat :=
  (List.range MAX_PSYCH_OCULUS_DEVS).find? fun i => (getDev st i).hmd = none

/-- PSYCHOCULUSVROpen: open a real (`deviceIndex >= 0`, native result
`createResult` from `ovrHmd_Create`) or emulated (`deviceIndex == -1`,
native result `createDebugResult` from `ovrHmd_CreateDebug`) HMD in the
first free slot.  `detect1` feeds the lazy runtime init, `detect2` the
re-detection performed by Open itself.  Returns the 1-based handle.
Note: the emulated branch stores `createDebugResult` without checking it
for NULL.  Both branches then run the stats block (lines 316-324),
unconditional because the file-static `verbosity` is 3 and never
written: it reads `oculus->hmd->ProductName` etc.  On the real branch
the pointer was checked non-NULL; on the emulated branch a NULL
`ovrHmd_CreateDebug` result makes this a NULL dereference, crashing the
process before `devicecount++` and before the handle is returned. -/
def PSYCHOCULUSVROpen (ovrInitOk : Bool) (detect1 detect2 : Int)
    (deviceIndex : Int) (createResult createDebugResult : Option Nat)
    (st : DriverState) : DriverState × PsychResult Int :=
  match PsychOculusVRCheckInit ovrInitOk detect1 st with
  | (st1, .fail e) => (st1, .fail e)
  | (st1, .crash) => (st1, .crash)
  | (st1, .ok _) =>
    match firstFreeSlot st1 with
    | none =>
      (st1, .fail (.internalErr "Maximum number of simultaneously open Oculus VR devices reached."))
    | some handle =>
      if deviceIndex < -1 then
        (st1, .fail (.user "Invalid deviceIndex provided. Must be greater or equal to zero!"))
      else
        let st2 := { st1 with
          available_devices := if detect2 < 0 then 0 else detect2 }
        if deviceIndex ≥ 0 ∧ deviceIndex ≥ st2.available_devices then
          (st2, .fail (.user "Invalid deviceIndex provided. Not enough HMDs available!"))
        else
          let st3 := setDev st2 handle zeroDevice
          if deviceIndex ≥ 0 then
            match createResult with
            | none =>
              (st3, .fail (.user "Could not connect to Rift device with given deviceIndex! [ovrHmd_Create() failed]"))
            | some hmd =>
              let st4 := setDev st3 handle { getDev st3 handle with hmd := some hmd }
              ({ st4 with devicecount := uinc st4.devicecount }, .ok (handle + 1))
          else
            let st4 := setDev st3 handle { getDev st3 handle with hmd := createDebugResult }
            -- Stats block: oculus->hmd->ProductName is dereferenced with
            -- verbosity = 3; a NULL debug-device pointer crashes here.
            match createDebugResult with
            | none => (st4, .crash)
            | some _ =>
              ({ st4 with devicecount := uinc st4.devicecount }, .ok (handle + 1))

/-- PSYCHOCULUSVRClose: with a handle >= 1 close that device; with the
default handle (-1, argument omitted) close all devices and shut the
driver down. -/
def PSYCHOCULUSVRClose (ovrInitOk : Bool) (detect1 : Int)
    (configOk : Bool) (handle : Int)
    (st : DriverState) : DriverState × PsychResult Unit :=
  match PsychOculusVRCheckInit ovrInitOk detect1 st with
  | (st1, .fail e) => (st1, .fail e)
  | (st1, .crash) => (st1, .crash)
  | (st1, .ok _) =>
    if handle ≥ 1 then PsychOculusClose configOk handle st1
    else PsychOculusVRShutDown configOk st1

/-- PSYCHOCULUSVRStart: start head tracking.  Invalid handle: user error.
Tracking already active: user error.  Failing
`ovrHmd_ConfigureTracking` (success = `configOk`): system error.
Otherwise set `isTracking`. -/
def PSYCHOCULUSVRStart (ovrInitOk : Bool) (detect1 : Int)
    (configOk : Bool) (handle : Int)
    (st : DriverState) : DriverState × PsychResult Unit :=
  match PsychOculusVRCheckInit ovrInitOk detect1 st with
  | (st1, .fail e) => (st1, .fail e)
  | (st1, .crash) => (st1, .crash)
  | (st1, .ok _) =>
    match PsychGetOculus st1 handle with
    | none => (st1, .fail (.user invalidHandleMsg))
    | some i =>
      let oculus := getDev st1 i
      if oculus.isTracking then
        (st1, .fail (.user "Tried to start tracking on HMD, but tracking already active."))
      else if !configOk then
        (st1, .fail (.system "Start of Oculus HMD tracking failed for reason given above."))
      else
        (setDev st1 i { oculus with isTracking := true }, .ok ())

/-- PSYCHOCULUSVRStop: driver-level stop subfunction. -/
def PSYCHOCULUSVRStop (ovrInitOk : Bool) (detect1 : Int)
    (configOk : Bool) (handle : Int)
    (st : DriverState) : DriverState × PsychResult Unit :=
  match PsychOculusVRCheckInit ovrInitOk detect1 st with
  | (st1, .fail e) => (st1, .fail e)
  | (st1, .crash) => (st1, .crash)
  | (st1, .ok _) => PsychOculusStop configOk handle st1

/-- The 20-element output vector of PSYCHOCULUSVRGetTrackingState, in the
order the C code fills `v[0] .. v[19]`. -/
def trackingVector (s : TrackingState) : List Int :=
  [s.HeadPose.TimeInSeconds,
   s.HeadPose.ThePose.Position.x,
   s.HeadPose.ThePose.Position.y,
   s.HeadPose.ThePose.Position.z,
   s.HeadPose.ThePose.Orientation.x,
   s.HeadPose.ThePose.Orientation.y,
   s.HeadPose.ThePose.Orientation.z,
   s.HeadPose.ThePose.Orientation.w,
   s.HeadPose.LinearVelocity.x,
   s.HeadPose.LinearVelocity.y,
   s.HeadPose.LinearVelocity.z,
   s.HeadPose.AngularVelocity.x,
   s.HeadPose.AngularVelocity.y,
   s.HeadPose.AngularVelocity.z,
   s.HeadPose.LinearAcceleration.x,
   s.HeadPose.LinearAcceleration.y,
   s.HeadPose.LinearAcceleration.z,
   s.HeadPose.AngularAcceleration.x,
   s.HeadPose.AngularAcceleration.y,
   s.HeadPose.AngularAcceleration.z]

/-- PSYCHOCULUSVRGetTrackingState: resolve the handle (user error when
invalid), query `ovrHmd_GetTrackingState` (result `sdkState`; the
`predictionTime` argument is forwarded to the SDK and does not otherwise
influence the call) and return the flattened 20-element vector. -/
def PSYCHOCULUSVRGetTrackingState (ovrInitOk : Bool) (detect1 : Int)
    (handle : Int) (_predictionTime : ℚ) (sdkState : TrackingState)
    (st : DriverState) : DriverState × PsychResult (List Int) :=
  match PsychOculusVRCheckInit ovrInitOk detect1 st with
  | (st1, .fail e) => (st1, .fail e)
  | (st1, .crash) => (st1, .crash)
  | (st1, .ok _) =>
    match PsychGetOculus st1 handle with
    | none => (st1, .fail (.user invalidHandleMsg))
    | some _ => (st1, .ok (trackingVector sdkState))

/-- The 10 output fields the mesh-flattening loop writes for one vertex,
in order: 2D NDC position, time-warp lerp factor, vignette fade factor,
then the red, green and blue tangent pairs, each with the y component
multiplied by -1. -/
def flattenVertex (v : DistortionVertex) : List Int :=
  [v.ScreenPosNDC.x, v.ScreenPosNDC.y,
   v.TimeWarpFactor,
   v.VignetteFactor,
   v.TanEyeAnglesR.x, v.TanEyeAnglesR.y * (-1),
   v.TanEyeAnglesG.x, v.TanEyeAnglesG.y * (-1),
   v.TanEyeAnglesB.x, v.TanEyeAnglesB.y * (-1)]

/-- The flattened vertex array: the loop runs over the first
`VertexCount` vertices of `pVertexData`, 10 doubles per vertex. -/
def flattenMesh (m : DistortionMesh) : List Int :=
  (m.pVertexData.take m.VertexCount).flatMap flattenVertex

/-- Results of the native SDK calls made by one successful run of
PSYCHOCULUSVRGetFovTextureSize, passed in as inputs.  `meshResult` is
`none` when `ovrHmd_CreateDistortionMesh` fails. -/
structure FovSDK where
  sdkTexSize : Sizei
  renderDesc : EyeRenderDesc
  meshResult : Option DistortionMesh
  uvScaleOffset : Vec2 × Vec2
  eyeRenderOrder : Nat
  hmdPose : Posef
  timeWarp : List Int × List Int
deriving DecidableEq, Repr

/-- The output argument list of PSYCHOCULUSVRGetFovTextureSize
(positions 1..19 of the C function). -/
structure FovOutput where
  width : Int
  height : Int
  viewPx : Int
  viewPy : Int
  viewPw : Int
  viewPh : Int
  pptax : Int
  pptay : Int
  hmdShiftx : Int
  hmdShifty : Int
  hmdShiftz : Int
  meshVertices : List Int
  meshIndices : List Nat
  uvScaleX : Int
  uvScaleY : Int
  uvOffsetX : Int
  uvOffsetY : Int
  startMatrix : List Int
  endMatrix : List Int
deriving DecidableEq, Repr

/-- PSYCHOCULUSVRGetFovTextureSize: validate handle, eye index, optional
field-of-view vector (must have 4 elements; `fovDeg = none` models an
omitted argument) and `pixelsPerDisplay` (> 0), in that order; then
query the SDK, overwrite the queried texture size with the hard-coded
1680x1050 and then 1080x1920, cache the eye render description with its
distorted viewport overridden to the full texture size, build the
distortion mesh for the eye (overwriting any previously held mesh
without releasing it), cache UV scale/offset, head pose (at the slot
`eyeRenderOrder`, the value of `hmd->EyeRenderOrder[eyeIndex]`) and the
two time-warp matrices, and return all flattened outputs. -/
def PSYCHOCULUSVRGetFovTextureSize (ovrInitOk : Bool) (detect1 : Int)
    (handle : Int) (eyeIndex : Int) (fovDeg : Option (List ℚ))
    (pixelsPerDisplay : ℚ) (sdk : FovSDK)
    (st : DriverState) : DriverState × PsychResult FovOutput :=
  match PsychOculusVRCheckInit ovrInitOk detect1 st with
  | (st1, .fail e) => (st1, .fail e)
  | (st1, .crash) => (st1, .crash)
  | (st1, .ok _) =>
    match PsychGetOculus st1 handle with
    | none => (st1, .fail (.user invalidHandleMsg))
    | some i =>
      if eyeIndex < 0 ∨ eyeIndex > 1 then
        (st1, .fail (.user "Invalid eye specified. Must be 0 or 1 for left- or right eye."))
      else if (match fovDeg with | some l => l.length != 4 | none => false : Bool) then
        (st1, .fail (.user "Invalid fov specified. Must be a 4-component vector of form [leftdeg, rightdeg, updeg, downdeg]."))
      else if pixelsPerDisplay ≤ 0 then
        (st1, .fail (.user "Invalid pixelsPerDisplay specified. Must be greater than zero."))
      else
        let e := eyeIndex.toNat
        let d := getDev st1 i
        -- texSize = ovrHmd_GetFovTextureSize(...), then the two
        -- hard-coded overrides present in the source:
        let d := { d with texSize := sdk.sdkTexSize }
        let d := { d with texSize := ⟨1680, 1050⟩ }
        let d := { d with texSize := ⟨1080, 1920⟩ }
        -- eyeRenderDesc[eyeIndex] = ovrHmd_GetRenderDesc(...), then the
        -- DistortedViewport override to [0, 0, texSize.w, texSize.h]:
        let rd := sdk.renderDesc
        let rd := { rd with DistortedViewport := ⟨⟨0, 0⟩, d.texSize⟩ }
        let d := { d with eyeRenderDesc := d.eyeRenderDesc.set e rd }
        match sdk.meshResult with
        | none =>
          (setDev st1 i d, .fail (.system "Failed to compute distortion mesh for eye."))
        | some mesh =>
          let d := { d with eyeDistortionMesh := d.eyeDistortionMesh.set e (some mesh) }
          let d := { d with UVScaleOffset := d.UVScaleOffset.set e sdk.uvScaleOffset }
          let d := { d with headPose := d.headPose.set sdk.eyeRenderOrder sdk.hmdPose }
          let d := { d with timeWarpMatrices := sdk.timeWarp }
          (setDev st1 i d, .ok {
            width := d.texSize.w
            height := d.texSize.h
            viewPx := rd.DistortedViewport.Pos.x
            viewPy := rd.DistortedViewport.Pos.y
            viewPw := rd.DistortedViewport.Size.w
            viewPh := rd.DistortedViewport.Size.h
            pptax := rd.PixelsPerTanAngleAtCenter.x
            pptay := rd.PixelsPerTanAngleAtCenter.y
            hmdShiftx := rd.HmdToEyeViewOffset.x
            hmdShifty := rd.HmdToEyeViewOffset.y
            hmdShiftz := rd.HmdToEyeViewOffset.z
            meshVertices := flattenMesh mesh
            meshIndices := mesh.pIndexData.take mesh.IndexCount
            uvScaleX := sdk.uvScaleOffset.1.x
            uvScaleY := sdk.uvScaleOffset.1.y
            uvOffsetX := sdk.uvScaleOffset.2.x
            uvOffsetY := sdk.uvScaleOffset.2.y
            startMatrix := sdk.timeWarp.1
            endMatrix := sdk.timeWarp.2 })

/-- Whether a result is a user error. -/
def PsychResult.isUserError {α : Type} : PsychResult α → Bool
  | .fail (.user _) => true
  | _ => false

/-- The mesh ids currently held by a device record, eye 0 first. -/
def meshIdsHeld (d : PsychOculusDevice) : List Nat :=
  (match d.eyeDistortionMesh.e0 with | some m => [m.meshId] | none => []) ++
  (match d.eyeDistortionMesh.e1 with | some m => [m.meshId] | none => [])

/-- Count of slots holding a non-NULL native device pointer. -/
def numOpen (st : DriverState) : Nat :=
  ((List.range MAX_PSYCH_OCULUS_DEVS).filter fun j => (getDev st j).hmd.isSome).length

/-- An initialized driver state with an empty device table: the state
reached from `PsychOculusVRInit` by the first `PsychOculusVRCheckInit`
with a successful `ovr_Initialize` and zero detected devices. -/
def readyState : DriverState := { PsychOculusVRInit with initialized := true }

/-- Iterated emulated opens: `afterOpens n st` is the state after `n`
successive `PSYCHOCULUSVROpen` calls with `deviceIndex = -1`, the k-th
call returning the debug HMD pointer `k`. -/
def afterOpens : Nat → DriverState → DriverState
  | 0, st => st
  | n + 1, st =>
    (PSYCHOCULUSVROpen true 0 0 (-1) none (some (n + 1)) (afterOpens n st)).1

section StateLemmas

lemma getDev_setDev_self (st : DriverState) (i : Nat) (d : PsychOculusDevice)
    (hi : i < MAX_PSYCH_OCULUS_DEVS) : getDev (setDev st i d) i = d := by
  simp [getDev, setDev, hi]

lemma getDev_setDev_ne (st : DriverState) (i : Nat) (d : PsychOculusDevice)
    (j : Nat) (hij : j ≠ i) : getDev (setDev st i d) j = getDev st j := by
  unfold getDev setDev
  split
  · split
    · simp only
      rw [Function.update_noteq]
      simp only [ne_eq, Fin.mk.injEq]
      exact hij
    · rfl
  · rfl

lemma setDev_available (st : DriverState) (i : Nat) (d : PsychOculusDevice) :
    (setDev st i d).available_devices = st.available_devices := by
  unfold setDev; split <;> rfl

lemma setDev_devicecount (st : DriverState) (i : Nat) (d : PsychOculusDevice) :
    (setDev st i d).devicecount = st.devicecount := by
  unfold setDev; split <;> rfl

lemma setDev_initialized (st : DriverState) (i : Nat) (d : PsychOculusDevice) :
    (setDev st i d).initialized = st.initialized := by
  unfold setDev; split <;> rfl

lemma setDev_released (st : DriverState) (i : Nat) (d : PsychOculusDevice) :
    (setDev st i d).released = st.released := by
  unfold setDev; split <;> rfl

lemma checkInit_initialized (b : Bool) (d : Int) (st : DriverState)
    (h : st.initialized = true) :
    PsychOculusVRCheckInit b d st = (st, .ok ()) := by
  simp [PsychOculusVRCheckInit, h]

lemma PsychGetOculus_some (st : DriverState) (h : Int) (i : Nat)
    (hv : PsychGetOculus st h = some i) :
    1 ≤ h ∧ h ≤ 10 ∧ i = (h - 1).toNat ∧ i < MAX_PSYCH_OCULUS_DEVS ∧
      (getDev st i).hmd ≠ none := by
  unfold PsychGetOculus at hv
  split at hv
  · exact absurd hv (by simp)
  · rename_i hc
    push_neg at hc
    obtain ⟨h1, h2, h3⟩ := hc
    obtain rfl : (h - 1).toNat = i := by injection hv
    simp only [MAX_PSYCH_OCULUS_DEVS] at h2 ⊢
    exact ⟨by omega, by omega, by trivial, by omega, h3⟩

lemma firstFreeSlot_some (st : DriverState) (i : Nat)
    (hf : firstFreeSlot st = some i) :
    i < MAX_PSYCH_OCULUS_DEVS ∧ (getDev st i).hmd = none := by
  unfold firstFreeSlot at hf
  constructor
  · have := List.mem_range.mp (List.mem_of_find?_eq_some hf)
    exact this
  · have := List.find?_some hf
    simpa using this

lemma setDev_setDev (st : DriverState) (i : Nat)
    (d d' : PsychOculusDevice) : setDev (setDev st i d) i d' = setDev st i d' := by
  unfold setDev
  split
  · simp [Function.update_idem]
  · rfl

lemma udec_uinc (n : Nat) (h : n < 4294967296) : udec (uinc n) = n := by
  unfold uinc udec
  omega

lemma find?_pointwise {α : Type} (p q : α → Bool) :
    ∀ l : List α, (∀ a ∈ l, p a = q a) → l.find? p = l.find? q
  | [], _ => rfl
  | a :: l, h => by
    rw [List.forall_mem_cons] at h
    rw [List.find?_cons, List.find?_cons, h.1, find?_pointwise p q l h.2]

lemma length_flatMap_const {α β : Type} (f : α → List β) (k : Nat)
    (hf : ∀ a, (f a).length = k) :
    ∀ l : List α, (l.flatMap f).length = k * l.length
  | [] => by simp
  | a :: l => by
    rw [List.flatMap_cons, List.length_append, hf a,
      length_flatMap_const f k hf l, List.length_cons]
    ring

lemma getDev_set_devicecount (st : DriverState) (c : Nat) (j : Nat) :
    getDev { st with devicecount := c } j = getDev st j := rfl

lemma getDev_set_available (st : DriverState) (av : Int) (j : Nat) :
    getDev { st with available_devices := av } j = getDev st j := rfl

lemma uinc_eq (n : Nat) (h : n + 1 < 4294967296) : uinc n = n + 1 := by
  unfold uinc
  omega

lemma getDev_set_rel_dc (st : DriverState) (r : List Nat) (c : Nat) (j : Nat) :
    getDev { st with released := r, devicecount := c } j = getDev st j := rfl

/-- The state produced by a successful PSYCHOCULUSVROpen that claimed
slot `i` and stored native pointer `hmdv` there: the slot is zeroed
except for the pointer, `available_devices` is refreshed from the
re-detection result `d2`, and `devicecount` is incremented. -/
def openResultState (st : DriverState) (d2 : Int) (i : Nat) (hmdv : Option Nat) :
    DriverState :=
  { setDev { st with available_devices := if d2 < 0 then 0 else d2 } i
      { zeroDevice with hmd := hmdv } with
    devicecount := uinc st.devicecount }

lemma getDev_openResultState_self (st : DriverState) (d2 : Int) (i : Nat)
    (hmdv : Option Nat) (hi : i < MAX_PSYCH_OCULUS_DEVS) :
    getDev (openResultState st d2 i hmdv) i = { zeroDevice with hmd := hmdv } := by
  unfold openResultState
  rw [getDev_set_devicecount, getDev_setDev_self _ _ _ hi]

lemma getDev_openResultState_ne (st : DriverState) (d2 : Int) (i : Nat)
    (hmdv : Option Nat) (j : Nat) (hj : j ≠ i) :
    getDev (openResultState st d2 i hmdv) j = getDev st j := by
  unfold openResultState
  rw [getDev_set_devicecount, getDev_setDev_ne _ _ _ _ hj, getDev_set_available]

lemma openResultState_initialized (st : DriverState) (d2 : Int) (i : Nat)
    (hmdv : Option Nat) :
    (openResultState st d2 i hmdv).initialized = st.initialized := by
  unfold openResultState
  show (setDev _ _ _).initialized = _
  rw [setDev_initialized]

lemma openResultState_devicecount (st : DriverState) (d2 : Int) (i : Nat)
    (hmdv : Option Nat) :
    (openResultState st d2 i hmdv).devicecount = uinc st.devicecount := rfl

lemma openResultState_released (st : DriverState) (d2 : Int) (i : Nat)
    (hmdv : Option Nat) :
    (openResultState st d2 i hmdv).released = st.released := by
  unfold openResultState
  show (setDev _ _ _).released = _
  rw [setDev_released]

/-- Shape of a successful PSYCHOCULUSVROpen in an initialized state: the
first free slot is zeroed and then given a NON-NULL native pointer `k`
produced by the SDK (the checked `ovrHmd_Create` result when
`deviceIndex >= 0`; otherwise the `ovrHmd_CreateDebug` result, which
must have been non-NULL since a NULL one crashes in the stats block
before the call can return a handle), `available_devices` is refreshed
from the second detection, `devicecount` is incremented, and the
1-based handle slot+1 is returned. -/
lemma open_ok_shape (st : DriverState) (hinit : st.initialized = true)
    (b : Bool) (d1 d2 di : Int) (cr cdr : Option Nat) (h : Int)
    (hok : (PSYCHOCULUSVROpen b d1 d2 di cr cdr st).2 = .ok h) :
    ∃ i k, firstFreeSlot st = some i ∧ h = i + 1 ∧
      PSYCHOCULUSVROpen b d1 d2 di cr cdr st =
        (openResultState st d2 i (some k), .ok (i + 1)) := by
  unfold PSYCHOCULUSVROpen at hok ⊢
  rw [checkInit_initialized b d1 st hinit] at hok ⊢
  dsimp only at hok ⊢
  cases hff : firstFreeSlot st with
  | none => rw [hff] at hok; exact absurd hok (by simp)
  | some i =>
    rw [hff] at hok
    dsimp only at hok ⊢
    obtain ⟨hi, _⟩ := firstFreeSlot_some st i hff
    by_cases hdi1 : di < -1
    · rw [if_pos hdi1] at hok; exact absurd hok (by simp)
    rw [if_neg hdi1] at hok ⊢
    by_cases hcond : di ≥ 0 ∧ di ≥ (if d2 < 0 then (0 : Int) else d2)
    · rw [if_pos hcond] at hok; exact absurd hok (by simp)
    rw [if_neg hcond] at hok ⊢
    by_cases hdi : di ≥ 0
    · rw [if_pos hdi] at hok ⊢
      cases cr with
      | none => exact absurd hok (by simp)
      | some k =>
        dsimp only at hok ⊢
        simp only [PsychResult.ok.injEq] at hok
        refine ⟨i, k, rfl, hok.symm, ?_⟩
        rw [getDev_setDev_self _ _ _ hi, setDev_setDev]
        simp [openResultState, setDev_devicecount, zeroDevice]
    · rw [if_neg hdi] at hok ⊢
      cases cdr with
      | none => exact absurd hok (by simp)
      | some k =>
        dsimp only at hok ⊢
        simp only [PsychResult.ok.injEq] at hok
        refine ⟨i, k, rfl, hok.symm, ?_⟩
        rw [getDev_setDev_self _ _ _ hi, setDev_setDev]
        simp [openResultState, setDev_devicecount, zeroDevice]

/-- Closed form of PSYCHOCULUSVROpen with `deviceIndex = -1` in an
initialized state with a free slot: the slot is zeroed, the unchecked
`ovrHmd_CreateDebug` result is stored as the native pointer,
`devicecount` is incremented and handle slot+1 is returned. -/
lemma open_emulated_eq (st : DriverState) (hinit : st.initialized = true)
    (i : Nat) (hff : firstFreeSlot st = some i)
    (b : Bool) (d1 d2 : Int) (cr : Option Nat) (k : Nat) :
    PSYCHOCULUSVROpen b d1 d2 (-1) cr (some k) st =
      (openResultState st d2 i (some k), .ok (i + 1)) := by
  obtain ⟨hi, _⟩ := firstFreeSlot_some st i hff
  unfold PSYCHOCULUSVROpen
  rw [checkInit_initialized b d1 st hinit]
  dsimp only
  rw [hff]
  dsimp only
  rw [if_neg (by omega : ¬(-1 : Int) < -1)]
  rw [if_neg (by simp : ¬((-1 : Int) ≥ 0 ∧ (-1 : Int) ≥ if d2 < 0 then (0 : Int) else d2))]
  rw [if_neg (by omega : ¬(-1 : Int) ≥ 0)]
  rw [getDev_setDev_self _ _ _ hi, setDev_setDev]
  simp [openResultState, setDev_devicecount, zeroDevice]

/-- PSYCHOCULUSVROpen with `deviceIndex = -1` and a NULL
`ovrHmd_CreateDebug` result: after the slot has been zeroed and the
NULL pointer stored, the stats block dereferences it and the process
crashes, with `devicecount` untouched and no handle returned. -/
lemma open_emulated_null_eq (st : DriverState) (hinit : st.initialized = true)
    (i : Nat) (hff : firstFreeSlot st = some i)
    (b : Bool) (d1 d2 : Int) (cr : Option Nat) :
    PSYCHOCULUSVROpen b d1 d2 (-1) cr none st =
      (setDev { st with available_devices := if d2 < 0 then 0 else d2 } i
        { zeroDevice with hmd := none }, .crash) := by
  obtain ⟨hi, _⟩ := firstFreeSlot_some st i hff
  unfold PSYCHOCULUSVROpen
  rw [checkInit_initialized b d1 st hinit]
  dsimp only
  rw [hff]
  dsimp only
  rw [if_neg (by omega : ¬(-1 : Int) < -1)]
  rw [if_neg (by simp : ¬((-1 : Int) ≥ 0 ∧ (-1 : Int) ≥ if d2 < 0 then (0 : Int) else d2))]
  rw [if_neg (by omega : ¬(-1 : Int) ≥ 0)]
  rw [getDev_setDev_self _ _ _ hi, setDev_setDev]

lemma Eyes.get_set_self {α : Type} (p : Eyes α) (e : Nat) (a : α) :
    (p.set e a).get e = a := by
  unfold Eyes.get Eyes.set
  by_cases he : e = 0
  · simp [he]
  · simp [he]

lemma stop_true_eq (st : DriverState) (h : Int) (i : Nat)
    (hv : PsychGetOculus st h = some i) :
    PsychOculusStop true h st =
      (if (getDev st i).isTracking then
        setDev st i { getDev st i with isTracking := false } else st, .ok ()) := by
  unfold PsychOculusStop
  rw [hv]
  dsimp only
  by_cases ht : (getDev st i).isTracking
  · simp [ht]
  · simp [ht]

/-- The slot record after a successful close: native pointer NULL,
tracking stopped, distortion meshes released; all cached data kept. -/
def closedSlotRecord (d : PsychOculusDevice) : PsychOculusDevice :=
  { d with hmd := none, isTracking := false, eyeDistortionMesh := ⟨none, none⟩ }

/-- The state produced by a successful close of the device in slot `i`:
the slot is freed, the held mesh ids are appended to the release log
and `devicecount` is decremented. -/
def closeResultState (st : DriverState) (i : Nat) : DriverState :=
  { setDev st i (closedSlotRecord (getDev st i)) with
      released := st.released ++ meshIdsHeld (getDev st i),
      devicecount := udec st.devicecount }

lemma getDev_closeResultState_self (st : DriverState) (i : Nat)
    (hi : i < MAX_PSYCH_OCULUS_DEVS) :
    getDev (closeResultState st i) i = closedSlotRecord (getDev st i) := by
  unfold closeResultState
  rw [getDev_set_rel_dc, getDev_setDev_self _ _ _ hi]

lemma getDev_closeResultState_ne (st : DriverState) (i : Nat) (j : Nat)
    (hj : j ≠ i) : getDev (closeResultState st i) j = getDev st j := by
  unfold closeResultState
  rw [getDev_set_rel_dc, getDev_setDev_ne _ _ _ _ hj]

lemma closeResultState_released (st : DriverState) (i : Nat) :
    (closeResultState st i).released
      = st.released ++ meshIdsHeld (getDev st i) := rfl

lemma closeResultState_devicecount (st : DriverState) (i : Nat) :
    (closeResultState st i).devicecount = udec st.devicecount := rfl

/-- Closed form of PSYCHOCULUSVRClose on a valid handle with a
successful native tracking stop: the slot is stopped and freed, the
held mesh ids are appended to the release log, `devicecount` is
decremented. -/
lemma close_true_eq (st : DriverState) (hinit : st.initialized = true)
    (h : Int) (i : Nat) (hv : PsychGetOculus st h = some i)
    (b : Bool) (d1 : Int) :
    PSYCHOCULUSVRClose b d1 true h st = (closeResultState st i, .ok ()) := by
  obtain ⟨h1, _, _, hi, _⟩ := PsychGetOculus_some st h i hv
  unfold PSYCHOCULUSVRClose
  rw [checkInit_initialized b d1 st hinit]
  dsimp only
  rw [if_pos (by omega : h ≥ 1)]
  unfold PsychOculusClose
  rw [hv, stop_true_eq st h i hv]
  by_cases ht : (getDev st i).isTracking
  · rw [if_pos ht]
    dsimp only
    have hg : getDev (setDev st i { getDev st i with isTracking := false }) i
        = { getDev st i with isTracking := false } := getDev_setDev_self _ _ _ hi
    rw [hg]
    rw [setDev_released, setDev_devicecount, setDev_setDev]
    rcases hD : getDev st i with ⟨dh, dtr, dts, drd, ⟨m0, m1⟩, duv, dtw, dhp⟩
    cases m0 <;> cases m1 <;>
      simp [closeResultState, hD, destroyMeshIfHeld, Eyes.get, Eyes.set, closedSlotRecord, meshIdsHeld]
  · rw [if_neg ht]
    dsimp only
    rcases hD : getDev st i with ⟨dh, dtr, dts, drd, ⟨m0, m1⟩, duv, dtw, dhp⟩
    rw [hD] at ht
    simp only [Bool.not_eq_true] at ht
    subst ht
    cases m0 <;> cases m1 <;>
      simp [closeResultState, hD, destroyMeshIfHeld, Eyes.get, Eyes.set, closedSlotRecord, meshIdsHeld]

lemma stop_idle_eq (st : DriverState) (h : Int) (i : Nat)
    (hv : PsychGetOculus st h = some i)
    (hnt : (getDev st i).isTracking = false) (cfg : Bool) :
    PsychOculusStop cfg h st = (st, .ok ()) := by
  unfold PsychOculusStop
  rw [hv]
  dsimp only
  simp [hnt]

/-- Closed form of PSYCHOCULUSVRClose on a valid handle of a device that
is not tracking (any native stop outcome, since no stop is issued). -/
lemma close_idle_eq (st : DriverState) (hinit : st.initialized = true)
    (h : Int) (i : Nat) (hv : PsychGetOculus st h = some i)
    (hnt : (getDev st i).isTracking = false)
    (b : Bool) (d1 : Int) (cfg : Bool) :
    PSYCHOCULUSVRClose b d1 cfg h st = (closeResultState st i, .ok ()) := by
  obtain ⟨h1, _, _, hi, _⟩ := PsychGetOculus_some st h i hv
  unfold PSYCHOCULUSVRClose
  rw [checkInit_initialized b d1 st hinit]
  dsimp only
  rw [if_pos (by omega : h ≥ 1)]
  unfold PsychOculusClose
  rw [hv, stop_idle_eq st h i hv hnt cfg]
  dsimp only
  rcases hD : getDev st i with ⟨dh, dtr, dts, drd, ⟨m0, m1⟩, duv, dtw, dhp⟩
  rw [hD] at hnt
  simp only at hnt
  subst hnt
  cases m0 <;> cases m1 <;>
    simp [closeResultState, hD, destroyMeshIfHeld, Eyes.get, Eyes.set, closedSlotRecord, meshIdsHeld]

end StateLemmas

/-- A driver state with exactly one open device: an emulated HMD
(native pointer 7) opened into slot 0, handle 1. -/
def stOne : DriverState :=
  (PSYCHOCULUSVROpen true 0 0 (-1) none (some 7) readyState).1

/-- A sample SDK tracking-state result with pairwise distinct fields. -/
def sampleTracking : TrackingState where
  HeadPose :=
    { ThePose := ⟨⟨1, 2, 3, 4⟩, ⟨5, 6, 7⟩⟩
      AngularVelocity := ⟨8, 9, 10⟩
      LinearVelocity := ⟨11, 12, 13⟩
      AngularAcceleration := ⟨14, 15, 16⟩
      LinearAcceleration := ⟨17, 18, 19⟩
      TimeInSeconds := 20 }

/-- C1, counterexample to the claim as stated: on the invalid handle 1 in
the initialized empty registry, the Stop operation does not fail with a
user error; it succeeds silently as a no-op. -/
theorem claim_C1_counterexample :
    PSYCHOCULUSVRStop true 0 true 1 readyState = (readyState, .ok ()) ∧
    (PSYCHOCULUSVRStop true 0 true 1 readyState).2.isUserError = false := by
  constructor <;> decide

/-- C1, amended: for every invalid handle (h < 1, h > 10, or NULL native
pointer in the slot) in an initialized state, Start, GetTrackingState
and GetFovTextureSize fail with the user error "Invalid Oculus handle."
and leave the state unchanged, while Stop (for every handle) and Close
(for every handle >= 1; smaller handles instead request driver
shutdown) succeed silently as no-ops with the state unchanged. -/
theorem claim_C1_amended (st : DriverState) (hinit : st.initialized = true)
    (h : Int) (hinv : PsychGetOculus st h = none) :
    (∀ b d cfg, PSYCHOCULUSVRStart b d cfg h st
        = (st, .fail (.user invalidHandleMsg))) ∧
    (∀ b d pt s, PSYCHOCULUSVRGetTrackingState b d h pt s st
        = (st, .fail (.user invalidHandleMsg))) ∧
    (∀ b d eye fov ppd sdk, PSYCHOCULUSVRGetFovTextureSize b d h eye fov ppd sdk st
        = (st, .fail (.user invalidHandleMsg))) ∧
    (∀ b d cfg, PSYCHOCULUSVRStop b d cfg h st = (st, .ok ())) ∧
    (h ≥ 1 → ∀ b d cfg, PSYCHOCULUSVRClose b d cfg h st = (st, .ok ())) := by
  refine ⟨?_, ?_, ?_, ?_, ?_⟩
  · intro b d cfg
    simp [PSYCHOCULUSVRStart, checkInit_initialized b d st hinit, hinv]
  · intro b d pt s
    simp [PSYCHOCULUSVRGetTrackingState, checkInit_initialized b d st hinit, hinv]
  · intro b d eye fov ppd sdk
    simp [PSYCHOCULUSVRGetFovTextureSize, checkInit_initialized b d st hinit, hinv]
  · intro b d cfg
    simp [PSYCHOCULUSVRStop, PsychOculusStop, checkInit_initialized b d st hinit, hinv]
  · intro hge b d cfg
    simp [PSYCHOCULUSVRClose, PsychOculusClose, checkInit_initialized b d st hinit,
      hinv, hge]

/-- C1 witness: Start on the invalid handle 3 of the one-device state
fails with the invalid-handle user error and changes nothing. -/
theorem claim_C1_witness :
    PSYCHOCULUSVRStart true 0 true 3 stOne = (stOne, .fail (.user invalidHandleMsg)) :=
  (claim_C1_amended stOne (by decide) 3 (by decide)).1 true 0 true

/-- C8: for every initialized state, open handle, prediction time and SDK
tracking-state result, GetTrackingState leaves the state unchanged and
returns exactly the 20-element vector [timestamp, position x/y/z,
orientation quaternion x/y/z/w, linear velocity, angular velocity,
linear acceleration, angular acceleration], each component copied
unchanged from the SDK structure. -/
theorem claim_C8 (st : DriverState) (hinit : st.initialized = true)
    (h : Int) (i : Nat) (hv : PsychGetOculus st h = some i)
    (b : Bool) (d1 : Int) (pt : ℚ) (s : TrackingState) :
    PSYCHOCULUSVRGetTrackingState b d1 h pt s st =
      (st, .ok
        [s.HeadPose.TimeInSeconds,
         s.HeadPose.ThePose.Position.x,
         s.HeadPose.ThePose.Position.y,
         s.HeadPose.ThePose.Position.z,
         s.HeadPose.ThePose.Orientation.x,
         s.HeadPose.ThePose.Orientation.y,
         s.HeadPose.ThePose.Orientation.z,
         s.HeadPose.ThePose.Orientation.w,
         s.HeadPose.LinearVelocity.x,
         s.HeadPose.LinearVelocity.y,
         s.HeadPose.LinearVelocity.z,
         s.HeadPose.AngularVelocity.x,
         s.HeadPose.AngularVelocity.y,
         s.HeadPose.AngularVelocity.z,
         s.HeadPose.LinearAcceleration.x,
         s.HeadPose.LinearAcceleration.y,
         s.HeadPose.LinearAcceleration.z,
         s.HeadPose.AngularAcceleration.x,
         s.HeadPose.AngularAcceleration.y,
         s.HeadPose.AngularAcceleration.z]) := by
  simp [PSYCHOCULUSVRGetTrackingState, checkInit_initialized b d1 st hinit, hv,
    trackingVector]

/-- C8 witness: GetTrackingState on the open handle 1 of the one-device
state returns the sample tracking data in the documented order. -/
theorem claim_C8_witness :
    PSYCHOCULUSVRGetTrackingState true 0 1 0 sampleTracking stOne =
      (stOne, .ok [20, 5, 6, 7, 1, 2, 3, 4, 11, 12, 13, 8, 9, 10, 17, 18, 19,
        14, 15, 16]) :=
  claim_C8 stOne (by decide) 1 0 (by decide) true 0 0 sampleTracking

/-- C9: for every initialized state, open handle, valid eye index, any
field-of-view argument and any SDK behaviour, GetFovTextureSize with
pixelsPerDisplay <= 0 fails with a user error and leaves the state
unchanged (in particular no SDK query result is consumed). -/
theorem claim_C9 (st : DriverState) (hinit : st.initialized = true)
    (h : Int) (i : Nat) (hv : PsychGetOculus st h = some i)
    (eye : Int) (h0 : 0 ≤ eye) (h1 : eye ≤ 1)
    (fovDeg : Option (List ℚ)) (ppd : ℚ) (hppd : ppd ≤ 0)
    (b : Bool) (d1 : Int) (sdk : FovSDK) :
    ∃ msg, PSYCHOCULUSVRGetFovTextureSize b d1 h eye fovDeg ppd sdk st
      = (st, .fail (.user msg)) := by
  have hc := checkInit_initialized b d1 st hinit
  have heye : ¬(eye < 0 ∨ eye > 1) := by omega
  rcases fovDeg with _ | l
  · exact ⟨"Invalid pixelsPerDisplay specified. Must be greater than zero.",
      by simp [PSYCHOCULUSVRGetFovTextureSize, hc, hv, heye, hppd]⟩
  · by_cases hl : l.length = 4
    · exact ⟨"Invalid pixelsPerDisplay specified. Must be greater than zero.",
        by simp [PSYCHOCULUSVRGetFovTextureSize, hc, hv, heye, hppd, hl]⟩
    · exact ⟨"Invalid fov specified. Must be a 4-component vector of form [leftdeg, rightdeg, updeg, downdeg].",
        by simp [PSYCHOCULUSVRGetFovTextureSize, hc, hv, heye, hppd, hl]⟩

/-- C9 witness: GetFovTextureSize with pixelsPerDisplay = 0 on the open
handle 1, eye 0, omitted fov, fails with a user error. -/
theorem claim_C9_witness :
    ∃ msg, PSYCHOCULUSVRGetFovTextureSize true 0 1 0 none 0
      ⟨⟨0, 0⟩, zeroDevice.eyeRenderDesc.e0, none, (⟨0, 0⟩, ⟨0, 0⟩), 0,
        zeroDevice.headPose.e0, ([], [])⟩ stOne
      = (stOne, .fail (.user msg)) :=
  claim_C9 stOne (by decide) 1 0 (by decide) 0 (by decide) (by decide) none 0
    (by decide) true 0 _

/-- C4, counterexample to the claim as stated: after 10 successful opens
from the empty registry, the 11th Open fails with an INTERNAL error
whose message is "Maximum number of simultaneously open Oculus VR
devices reached.", not with a UserError reading "maximum number of
simultaneously open devices reached". -/
theorem claim_C4_counterexample :
    (PSYCHOCULUSVROpen true 0 0 (-1) none (some 11) (afterOpens 10 readyState)).2
      = .fail (.internalErr "Maximum number of simultaneously open Oculus VR devices reached.") ∧
    (PSYCHOCULUSVROpen true 0 0 (-1) none (some 11) (afterOpens 10 readyState)).2.isUserError
      = false := by
  constructor <;> decide

/-- C4, amended: starting from the empty initialized registry, 10
successive Open calls all succeed (returning handles 1..10), and the
11th Open fails with an internal (not user) error whose message is
"Maximum number of simultaneously open Oculus VR devices reached.",
leaving the state exactly as it was after the 10th open. -/
theorem claim_C4_amended :
    (∀ k ∈ List.range 10,
      (PSYCHOCULUSVROpen true 0 0 (-1) none (some (k + 1)) (afterOpens k readyState)).2
        = .ok (k + 1)) ∧
    PSYCHOCULUSVROpen true 0 0 (-1) none (some 11) (afterOpens 10 readyState)
      = (afterOpens 10 readyState,
         .fail (.internalErr "Maximum number of simultaneously open Oculus VR devices reached.")) := by
  constructor
  · decide
  · decide

/-- C4 witness: the first of the ten opens succeeds with handle 1. -/
theorem claim_C4_witness :
    (PSYCHOCULUSVROpen true 0 0 (-1) none (some 1) (afterOpens 0 readyState)).2
      = .ok 1 :=
  claim_C4_amended.1 0 (by decide)

/-- C2: evaluation of the shutdown path at the failing input.  With all
10 slots open, Close-all/ShutDown succeeds, but the device in slot
index 9 (handle 10) is never closed: its native pointer is still
non-NULL, `devicecount` is left at 1 and exactly one slot remains open,
contradicting the claim that every slot is closed and the counters are
reset.  The final conjunct shows `available_devices` is not reset
either: after a GetCount that detected 5 devices, shutdown leaves it
at 5. -/
theorem claim_C2_bug :
    (PsychOculusVRShutDown true (afterOpens 10 readyState)).2 = .ok () ∧
    (PsychOculusVRShutDown true (afterOpens 10 readyState)).1.initialized = false ∧
    (getDev (PsychOculusVRShutDown true (afterOpens 10 readyState)).1 9).hmd = some 10 ∧
    (PsychOculusVRShutDown true (afterOpens 10 readyState)).1.devicecount = 1 ∧
    numOpen (PsychOculusVRShutDown true (afterOpens 10 readyState)).1 = 1 ∧
    (PsychOculusVRShutDown true (PSYCHOCULUSVRGetCount true 0 5 readyState).1).1.available_devices
      = 5 := by
  refine ⟨by decide, by decide, by decide, by decide, by decide, by decide⟩

/-- C10, counterexample to the claim as stated: opening the emulated
device in the initialized empty registry with a NULL
`ovrHmd_CreateDebug` result does NOT return a handle or increment the
open-device count: the stats block (unconditional, since the
file-static verbosity is 3) dereferences the NULL native pointer and
the process crashes, with the registry unchanged and the count
still 0. -/
theorem claim_C10_counterexample :
    (PSYCHOCULUSVROpen true 0 0 (-1) none none readyState).2 = .crash ∧
    (PSYCHOCULUSVROpen true 0 0 (-1) none none readyState).1.devicecount = 0 ∧
    numOpen (PSYCHOCULUSVROpen true 0 0 (-1) none none readyState).1 = 0 ∧
    readyState.devicecount = 0 := by
  refine ⟨by decide, by decide, by decide, by decide⟩

/-- C10, amended: Open with deviceIndex = -1 never checks the result of
native debug-device construction.  Whenever a free slot exists and the
runtime is initialized: with a non-NULL result the call unconditionally
increments the open-device count and returns the new 1-based handle
(there is no failure path); with a NULL result the missing check lets
control reach the verbosity >= 3 stats block, which dereferences the
NULL pointer, so the process crashes before the count is incremented or
a handle is returned, and the inconsistent registry described by the
original claim never arises. -/
theorem claim_C10_amended (st : DriverState) (hinit : st.initialized = true)
    (i : Nat) (hff : firstFreeSlot st = some i)
    (hlt : st.devicecount + 1 < 4294967296)
    (b : Bool) (d1 d2 : Int) :
    (∀ k : Nat,
      (PSYCHOCULUSVROpen b d1 d2 (-1) none (some k) st).2 = .ok (i + 1) ∧
      (PSYCHOCULUSVROpen b d1 d2 (-1) none (some k) st).1.devicecount
        = st.devicecount + 1 ∧
      (getDev (PSYCHOCULUSVROpen b d1 d2 (-1) none (some k) st).1 i).hmd = some k) ∧
    ((PSYCHOCULUSVROpen b d1 d2 (-1) none none st).2 = .crash ∧
      (PSYCHOCULUSVROpen b d1 d2 (-1) none none st).1.devicecount = st.devicecount ∧
      (getDev (PSYCHOCULUSVROpen b d1 d2 (-1) none none st).1 i).hmd = none) := by
  obtain ⟨hi, hnone⟩ := firstFreeSlot_some st i hff
  constructor
  · intro k
    rw [open_emulated_eq st hinit i hff b d1 d2 none k]
    refine ⟨rfl, ?_, ?_⟩
    · rw [openResultState_devicecount, uinc_eq _ hlt]
    · rw [getDev_openResultState_self st d2 i (some k) hi]
  · rw [open_emulated_null_eq st hinit i hff b d1 d2 none]
    refine ⟨rfl, ?_, ?_⟩
    · rw [setDev_devicecount]
    · rw [getDev_setDev_self _ _ _ hi]

/-- C10 witness: in the empty registry, the emulated open with a
non-NULL debug pointer returns handle 1, and with a NULL debug pointer
it crashes. -/
theorem claim_C10_witness :
    (PSYCHOCULUSVROpen true 0 0 (-1) none (some 7) readyState).2 = .ok 1 ∧
    (PSYCHOCULUSVROpen true 0 0 (-1) none none readyState).2 = .crash := by
  have h := claim_C10_amended readyState (by decide) 0 (by decide) (by decide)
    true 0 0
  exact ⟨(h.1 7).1, h.2.1⟩

/-- C5: for every initialized registry state in which Open succeeds
(returns a handle without error - a NULL emulated construction instead
crashes in the stats block and returns nothing), performing Open and
then immediately Close on the returned handle yields a registry equal
to the pre-open state: the open-device count is restored, the claimed
slot's native pointer is NULL again and every other slot is untouched,
and a subsequent Open would claim that same slot (the first-free-slot
search is unchanged; Open claims the first free slot and handles are
slot index + 1). -/
theorem claim_C5 (st : DriverState) (hinit : st.initialized = true)
    (hlt : st.devicecount < 4294967296)
    (b b2 : Bool) (d1 d2 d3 di : Int) (cr cdr : Option Nat) (h : Int)
    (hok : (PSYCHOCULUSVROpen b d1 d2 di cr cdr st).2 = .ok h) (cfg : Bool) :
    (PSYCHOCULUSVRClose b2 d3 cfg h (PSYCHOCULUSVROpen b d1 d2 di cr cdr st).1).2
      = .ok () ∧
    (PSYCHOCULUSVRClose b2 d3 cfg h (PSYCHOCULUSVROpen b d1 d2 di cr cdr st).1).1.devicecount
      = st.devicecount ∧
    (getDev (PSYCHOCULUSVRClose b2 d3 cfg h (PSYCHOCULUSVROpen b d1 d2 di cr cdr st).1).1
        (h - 1).toNat).hmd = none ∧
    (∀ j, j ≠ (h - 1).toNat →
      getDev (PSYCHOCULUSVRClose b2 d3 cfg h (PSYCHOCULUSVROpen b d1 d2 di cr cdr st).1).1 j
        = getDev st j) ∧
    firstFreeSlot st = some (h - 1).toNat ∧
    firstFreeSlot
        (PSYCHOCULUSVRClose b2 d3 cfg h (PSYCHOCULUSVROpen b d1 d2 di cr cdr st).1).1
      = firstFreeSlot st := by
  obtain ⟨i, k, hff, hh, heq⟩ := open_ok_shape st hinit b d1 d2 di cr cdr h hok
  subst hh
  obtain ⟨hi, hnone⟩ := firstFreeSlot_some st i hff
  have hidx : ((i : Int) + 1 - 1).toNat = i := by omega
  rw [heq, hidx]
  dsimp only
  have hgOpen := getDev_openResultState_self st d2 i (some k) hi
  have hv' : PsychGetOculus (openResultState st d2 i (some k))
      ((i : Int) + 1) = some i := by
    unfold PsychGetOculus
    rw [if_neg]
    · rw [hidx]
    · rw [hidx, hgOpen]
      push_neg
      refine ⟨by omega, ?_, by simp⟩
      simp only [MAX_PSYCH_OCULUS_DEVS] at hi ⊢
      omega
  have hinit' : (openResultState st d2 i (some k)).initialized = true := by
    rw [openResultState_initialized]
    exact hinit
  have hnt : (getDev (openResultState st d2 i (some k)) i).isTracking = false := by
    rw [hgOpen]
    rfl
  rw [close_idle_eq _ hinit' _ i hv' hnt b2 d3 cfg]
  dsimp only
  have hother : ∀ j, j ≠ i →
      getDev (closeResultState (openResultState st d2 i (some k)) i) j
        = getDev st j := by
    intro j hj
    rw [getDev_closeResultState_ne _ _ _ hj,
      getDev_openResultState_ne st d2 i _ j hj]
  refine ⟨rfl, ?_, ?_, hother, hff, ?_⟩
  · rw [closeResultState_devicecount, openResultState_devicecount]
    exact udec_uinc st.devicecount hlt
  · rw [getDev_closeResultState_self _ _ hi]
    rfl
  · unfold firstFreeSlot
    apply find?_pointwise
    intro j _
    by_cases hj : j = i
    · subst hj
      rw [decide_eq_decide]
      rw [getDev_closeResultState_self _ _ hi]
      simp [closedSlotRecord, hnone]
    · rw [decide_eq_decide]
      rw [hother j hj]

/-- C5 witness: open an emulated device (non-NULL debug pointer 7) in
the empty registry and close handle 1 again: the count returns to 0 and
slot 0 is free again. -/
theorem claim_C5_witness :
    (PSYCHOCULUSVRClose true 0 true 1
        (PSYCHOCULUSVROpen true 0 0 (-1) none (some 7) readyState).1).1.devicecount
      = readyState.devicecount ∧
    firstFreeSlot readyState = some ((1 : Int) - 1).toNat := by
  have hmain := claim_C5 readyState (by decide) (by decide) true true 0 0 0
    (-1) none (some 7) 1 (by decide) true
  exact ⟨hmain.2.1, hmain.2.2.2.2.1⟩

/-- A sample SDK distortion-mesh vertex with distinct field values. -/
def sampleVertex : DistortionVertex :=
  ⟨⟨5, 6⟩, 7, 8, ⟨2, 3⟩, ⟨9, 4⟩, ⟨11, 12⟩⟩

/-- A sample one-vertex SDK distortion mesh with ghost id `id`. -/
def sampleMesh (id : Nat) : DistortionMesh :=
  ⟨id, 1, [sampleVertex], 3, [0, 0, 0]⟩

/-- Sample SDK results for one GetFovTextureSize call producing the mesh
with ghost id `id`. -/
def sampleFovSDK (id : Nat) : FovSDK :=
  ⟨⟨100, 200⟩, zeroDevice.eyeRenderDesc.e0, some (sampleMesh id),
   (⟨0, 0⟩, ⟨0, 0⟩), 0, zeroDevice.headPose.e0, ([], [])⟩

/-- The output of GetFovTextureSize for `sampleFovSDK` on an open
handle: hard-coded 1080x1920 texture size and viewport, and the sample
vertex flattened with all three tangent y components negated. -/
def sampleFovOutput : FovOutput :=
  ⟨1080, 1920, 0, 0, 1080, 1920, 0, 0, 0, 0, 0,
   [5, 6, 7, 8, 2, -3, 9, -4, 11, -12], [0, 0, 0], 0, 0, 0, 0, [], []⟩

/-- C6, counterexample to the claim as stated: the SDK vertex has red
tangent pair (2, 3), but the flattened output holds -3 in the red pair
vertical slot (index 5): the red channel vertical tangent is negated
too, not copied unchanged as the claim says. -/
theorem claim_C6_counterexample :
    (PSYCHOCULUSVRGetFovTextureSize true 0 1 0 none 1 (sampleFovSDK 1) stOne).2
      = .ok sampleFovOutput ∧
    sampleFovOutput.meshVertices[5]? = some (-3) ∧
    sampleVertex.TanEyeAnglesR.y = 3 := by
  refine ⟨by decide, by decide, by decide⟩

/-- C6, amended: in every successful GetFovTextureSize call the
flattened vertex array consists of exactly 10 fields per SDK vertex in
the order [screen pos x, screen pos y, time-warp lerp factor, vignette
fade factor, red pair, green pair, blue pair], where the vertical (y)
tangent component is negated for ALL THREE colour channels (red
included) and every other field is copied unchanged. -/
theorem claim_C6_amended (b : Bool) (d1 : Int) (h eye : Int)
    (fov : Option (List ℚ)) (ppd : ℚ) (sdk : FovSDK) (st : DriverState)
    (mesh : DistortionMesh) (out : FovOutput)
    (hm : sdk.meshResult = some mesh)
    (hok : (PSYCHOCULUSVRGetFovTextureSize b d1 h eye fov ppd sdk st).2 = .ok out) :
    out.meshVertices = (mesh.pVertexData.take mesh.VertexCount).flatMap (fun v =>
      [v.ScreenPosNDC.x, v.ScreenPosNDC.y, v.TimeWarpFactor, v.VignetteFactor,
       v.TanEyeAnglesR.x, -v.TanEyeAnglesR.y,
       v.TanEyeAnglesG.x, -v.TanEyeAnglesG.y,
       v.TanEyeAnglesB.x, -v.TanEyeAnglesB.y]) ∧
    out.meshVertices.length
      = 10 * (mesh.pVertexData.take mesh.VertexCount).length := by
  unfold PSYCHOCULUSVRGetFovTextureSize at hok
  rcases hci : PsychOculusVRCheckInit b d1 st with ⟨st1, r⟩
  rw [hci] at hok
  cases r with
  | fail e => exact absurd hok (by simp)
  | crash => exact absurd hok (by simp)
  | ok u =>
    dsimp only at hok
    cases hv2 : PsychGetOculus st1 h with
    | none => rw [hv2] at hok; exact absurd hok (by simp)
    | some i =>
      rw [hv2] at hok
      dsimp only at hok
      split at hok
      · exact absurd hok (by simp)
      split at hok
      · exact absurd hok (by simp)
      split at hok
      · exact absurd hok (by simp)
      rw [hm] at hok
      dsimp only at hok
      simp only [PsychResult.ok.injEq] at hok
      subst hok
      constructor
      · show flattenMesh mesh = _
        unfold flattenMesh
        congr 1
        funext v
        simp [flattenVertex, mul_neg_one]
      · show (flattenMesh mesh).length = _
        unfold flattenMesh
        exact length_flatMap_const flattenVertex 10 (fun v => rfl) _

/-- C6 witness: the sample run satisfies the amended layout. -/
theorem claim_C6_witness :
    sampleFovOutput.meshVertices
      = ((sampleMesh 1).pVertexData.take (sampleMesh 1).VertexCount).flatMap (fun v =>
          [v.ScreenPosNDC.x, v.ScreenPosNDC.y, v.TimeWarpFactor, v.VignetteFactor,
           v.TanEyeAnglesR.x, -v.TanEyeAnglesR.y,
           v.TanEyeAnglesG.x, -v.TanEyeAnglesG.y,
           v.TanEyeAnglesB.x, -v.TanEyeAnglesB.y]) ∧
    sampleFovOutput.meshVertices.length
      = 10 * ((sampleMesh 1).pVertexData.take (sampleMesh 1).VertexCount).length :=
  claim_C6_amended true 0 1 0 none 1 (sampleFovSDK 1) stOne (sampleMesh 1)
    sampleFovOutput rfl (by decide)

/-- The one-device state after one GetFovTextureSize call for eye 0 that
acquired the SDK mesh with ghost id 1. -/
def stFov1 : DriverState :=
  (PSYCHOCULUSVRGetFovTextureSize true 0 1 0 none 1 (sampleFovSDK 1) stOne).1

/-- The state after a second GetFovTextureSize call for the same eye,
acquiring the SDK mesh with ghost id 2. -/
def stFov2 : DriverState :=
  (PSYCHOCULUSVRGetFovTextureSize true 0 1 0 none 1 (sampleFovSDK 2) stFov1).1

/-- C7, counterexample to the claim as stated: after the first
GetFovTextureSize for eye 0 the device holds mesh 1; the second call
for the same eye simply overwrites it with mesh 2 while the release log
is still empty, i.e. mesh 1 was never passed to
`ovrHmd_DestroyDistortionMesh` before being replaced. -/
theorem claim_C7_counterexample :
    (getDev stFov1 0).eyeDistortionMesh.get 0 = some (sampleMesh 1) ∧
    (getDev stFov2 0).eyeDistortionMesh.get 0 = some (sampleMesh 2) ∧
    stFov2.released = [] := by
  refine ⟨by decide, by decide, by decide⟩

/-- C7, amended: Close releases exactly the meshes the device currently
holds (their ids are appended once to the release log and the slot
holds no mesh afterwards), but GetFovTextureSize never releases
anything: it leaves the release log of any state unchanged, and on
success simply stores the new mesh for the eye in place of whatever was
there. -/
theorem claim_C7_amended (st : DriverState) (hinit : st.initialized = true)
    (h : Int) (i : Nat) (hv : PsychGetOculus st h = some i) :
    (∀ b d1, (PSYCHOCULUSVRClose b d1 true h st).2 = .ok () ∧
      (PSYCHOCULUSVRClose b d1 true h st).1.released
        = st.released ++ meshIdsHeld (getDev st i) ∧
      (getDev (PSYCHOCULUSVRClose b d1 true h st).1 i).eyeDistortionMesh
        = ⟨none, none⟩) ∧
    (∀ b d1 h2 eye fov ppd sdk,
      (PSYCHOCULUSVRGetFovTextureSize b d1 h2 eye fov ppd sdk st).1.released
        = st.released) ∧
    (∀ b d1 eye fov ppd sdk mesh out, sdk.meshResult = some mesh →
      (PSYCHOCULUSVRGetFovTextureSize b d1 h eye fov ppd sdk st).2 = .ok out →
      ((getDev (PSYCHOCULUSVRGetFovTextureSize b d1 h eye fov ppd sdk st).1 i).eyeDistortionMesh).get
          eye.toNat = some mesh) := by
  obtain ⟨_, _, _, hi, _⟩ := PsychGetOculus_some st h i hv
  refine ⟨?_, ?_, ?_⟩
  · intro b d1
    rw [close_true_eq st hinit h i hv b d1]
    refine ⟨rfl, closeResultState_released st i, ?_⟩
    rw [getDev_closeResultState_self st i hi]
    rfl
  · intro b d1 h2 eye fov ppd sdk
    unfold PSYCHOCULUSVRGetFovTextureSize
    rw [checkInit_initialized b d1 st hinit]
    dsimp only
    cases hv2 : PsychGetOculus st h2 with
    | none => rfl
    | some i2 =>
      obtain ⟨_, _, _, hi2, _⟩ := PsychGetOculus_some st h2 i2 hv2
      dsimp only
      split
      · rfl
      split
      · rfl
      split
      · rfl
      cases hms : sdk.meshResult with
      | none =>
        dsimp only
        show (setDev st i2 _).released = st.released
        rw [setDev_released]
      | some mesh =>
        dsimp only
        show (setDev st i2 _).released = st.released
        rw [setDev_released]
  · intro b d1 eye fov ppd sdk mesh out hm hok
    unfold PSYCHOCULUSVRGetFovTextureSize at hok ⊢
    rw [checkInit_initialized b d1 st hinit] at hok ⊢
    dsimp only at hok ⊢
    rw [hv] at hok ⊢
    dsimp only at hok ⊢
    split at hok
    · exact absurd hok (by simp)
    split at hok
    · exact absurd hok (by simp)
    split at hok
    · exact absurd hok (by simp)
    rename_i heye hfov hppd
    rw [if_neg heye, if_neg hfov, if_neg hppd]
    rw [hm] at hok ⊢
    dsimp only at hok ⊢
    rw [getDev_setDev_self _ _ _ hi]
    show (((getDev st i).eyeDistortionMesh.set eye.toNat (some mesh)).get eye.toNat)
      = some mesh
    exact Eyes.get_set_self _ _ _

/-- C7 witness: closing the one-device state appends exactly the held
mesh ids (none here) and leaves the slot without meshes. -/
theorem claim_C7_witness :
    (PSYCHOCULUSVRClose true 0 true 1 stOne).1.released
      = stOne.released ++ meshIdsHeld (getDev stOne 0) ∧
    (getDev (PSYCHOCULUSVRClose true 0 true 1 stOne).1 0).eyeDistortionMesh
      = ⟨none, none⟩ := by
  have hmain := claim_C7_amended stOne (by decide) 1 0 (by decide)
  exact ⟨(hmain.1 true 0).2.1, (hmain.1 true 0).2.2⟩

/-- C3: the per-device tracking flag follows the state machine
Stopped -(Start)-> Tracking -(Stop)-> Stopped.  For every open handle:
Start while tracking fails with a user error and changes nothing; Stop
while not tracking succeeds as a no-op; Start from Stopped (with a
successful native call) sets exactly the flag; Stop from Tracking
(with a successful native call) clears exactly the flag; and
GetTrackingState, GetCount, GetFovTextureSize and Open never change the
tracking flag of any open device. -/
theorem claim_C3 (st : DriverState) (hinit : st.initialized = true)
    (h : Int) (i : Nat) (hv : PsychGetOculus st h = some i) :
    ((getDev st i).isTracking = true → ∀ b d1 cfg,
      PSYCHOCULUSVRStart b d1 cfg h st
        = (st, .fail (.user "Tried to start tracking on HMD, but tracking already active."))) ∧
    ((getDev st i).isTracking = false → ∀ b d1 cfg,
      PSYCHOCULUSVRStop b d1 cfg h st = (st, .ok ())) ∧
    ((getDev st i).isTracking = false → ∀ b d1,
      PSYCHOCULUSVRStart b d1 true h st
        = (setDev st i { getDev st i with isTracking := true }, .ok ())) ∧
    ((getDev st i).isTracking = true → ∀ b d1,
      PSYCHOCULUSVRStop b d1 true h st
        = (setDev st i { getDev st i with isTracking := false }, .ok ())) ∧
    (∀ b d1 h2 pt s, (PSYCHOCULUSVRGetTrackingState b d1 h2 pt s st).1 = st) ∧
    (∀ b d1 d2 j, (getDev (PSYCHOCULUSVRGetCount b d1 d2 st).1 j).isTracking
        = (getDev st j).isTracking) ∧
    (∀ b d1 h2 eye fov ppd sdk j,
      (getDev (PSYCHOCULUSVRGetFovTextureSize b d1 h2 eye fov ppd sdk st).1 j).isTracking
        = (getDev st j).isTracking) ∧
    (∀ b d1 d2 di cr cdr j, (getDev st j).hmd ≠ none →
      (getDev (PSYCHOCULUSVROpen b d1 d2 di cr cdr st).1 j).isTracking
        = (getDev st j).isTracking) := by
  obtain ⟨_, _, _, hi, _⟩ := PsychGetOculus_some st h i hv
  refine ⟨?_, ?_, ?_, ?_, ?_, ?_, ?_, ?_⟩
  · intro ht b d1 cfg
    unfold PSYCHOCULUSVRStart
    rw [checkInit_initialized b d1 st hinit]
    dsimp only
    rw [hv]
    dsimp only
    rw [if_pos (by rw [ht] : (getDev st i).isTracking = true)]
  · intro ht b d1 cfg
    unfold PSYCHOCULUSVRStop
    rw [checkInit_initialized b d1 st hinit]
    dsimp only
    exact stop_idle_eq st h i hv ht cfg
  · intro ht b d1
    unfold PSYCHOCULUSVRStart
    rw [checkInit_initialized b d1 st hinit]
    dsimp only
    rw [hv]
    dsimp only
    rw [if_neg (by rw [ht]; exact Bool.false_ne_true)]
    simp
  · intro ht b d1
    unfold PSYCHOCULUSVRStop
    rw [checkInit_initialized b d1 st hinit]
    dsimp only
    rw [stop_true_eq st h i hv, if_pos (by rw [ht] : (getDev st i).isTracking = true)]
  · intro b d1 h2 pt s
    unfold PSYCHOCULUSVRGetTrackingState
    rw [checkInit_initialized b d1 st hinit]
    dsimp only
    cases PsychGetOculus st h2 <;> rfl
  · intro b d1 d2 j
    unfold PSYCHOCULUSVRGetCount
    rw [checkInit_initialized b d1 st hinit]
    dsimp only
    rw [getDev_set_available]
  · intro b d1 h2 eye fov ppd sdk j
    unfold PSYCHOCULUSVRGetFovTextureSize
    rw [checkInit_initialized b d1 st hinit]
    dsimp only
    cases hv2 : PsychGetOculus st h2 with
    | none => rfl
    | some i2 =>
      obtain ⟨_, _, _, hi2, _⟩ := PsychGetOculus_some st h2 i2 hv2
      dsimp only
      split
      · rfl
      split
      · rfl
      split
      · rfl
      cases hms : sdk.meshResult with
      | none =>
        dsimp only
        by_cases hj : j = i2
        · subst hj
          rw [getDev_setDev_self _ _ _ hi2]
        · rw [getDev_setDev_ne _ _ _ _ hj]
      | some mesh =>
        dsimp only
        by_cases hj : j = i2
        · subst hj
          rw [getDev_setDev_self _ _ _ hi2]
        · rw [getDev_setDev_ne _ _ _ _ hj]
  · intro b d1 d2 di cr cdr j hopen
    unfold PSYCHOCULUSVROpen
    rw [checkInit_initialized b d1 st hinit]
    dsimp only
    cases hff : firstFreeSlot st with
    | none => rfl
    | some k =>
      obtain ⟨hk, hknone⟩ := firstFreeSlot_some st k hff
      have hjk : j ≠ k := fun hjk => hopen (hjk ▸ hknone)
      dsimp only
      by_cases hc1 : di < -1
      · rw [if_pos hc1]
      rw [if_neg hc1]
      by_cases hc2 : di ≥ 0 ∧ di ≥ (if d2 < 0 then (0 : Int) else d2)
      · rw [if_pos hc2]
        exact congrArg PsychOculusDevice.isTracking
          (getDev_set_available st (if d2 < 0 then 0 else d2) j)
      rw [if_neg hc2]
      by_cases hdi : di ≥ 0
      · rw [if_pos hdi]
        cases cr with
        | none =>
          dsimp only
          rw [getDev_setDev_ne _ _ _ _ hjk, getDev_set_available]
        | some m =>
          dsimp only
          rw [getDev_set_devicecount, setDev_setDev,
            getDev_setDev_ne _ _ _ _ hjk, getDev_set_available]
      · rw [if_neg hdi]
        cases cdr with
        | none =>
          dsimp only
          rw [setDev_setDev, getDev_setDev_ne _ _ _ _ hjk, getDev_set_available]
        | some m =>
          dsimp only
          rw [getDev_set_devicecount, setDev_setDev,
            getDev_setDev_ne _ _ _ _ hjk, getDev_set_available]

/-- C3 witness: Start on the freshly opened (non-tracking) handle 1 of
the one-device state sets exactly the tracking flag. -/
theorem claim_C3_witness :
    PSYCHOCULUSVRStart true 0 true 1 stOne
      = (setDev stOne 0 { getDev stOne 0 with isTracking := true }, .ok ()) :=
  (claim_C3 stOne (by decide) 1 0 (by decide)).2.2.1 (by decide) true 0

end PsychOculusVR
